import Mathlib

/-!
Verification of the KmmBot role-reconciliation bot (index.js) against its
natural-language specification.

The JavaScript source is shallowly embedded below.  State that the source
reads from the external directory (member role sets, role positions, bot
permissions, failure of awaited calls) is passed in explicitly; every
function returns the list of role-mutation calls it issues, the log events
it emits, and — where relevant — the updated member state.  A missing
environment variable is modelled as the empty string (in JS both the
missing value `undefined` and the empty string are falsy in the startup
validation).
-/

namespace KmmBot

/-- Static configuration read from the environment at startup
(`process.env.*` in index.js).  A value that is absent in the environment
is modelled as `""`. -/
structure Config where
  token : String
  guildId : String
  unverifiedRoleId : String
  memberRoleId : String
  verificationChannelId : String
  logChannelId : String
  patreonRoleIdsRaw : String
deriving DecidableEq, Repr

/-- Drop leading whitespace characters from a character list; the
building block of the JS `String.prototype.trim` embedding. -/
def dropLeadingWs : List Char → List Char
  | [] => []
  | c :: cs => if c.isWhitespace then dropLeadingWs cs else c :: cs

/-- The JS `trim()` method: remove leading and trailing whitespace. -/
def jsTrim (s : String) : String :=
  ⟨(dropLeadingWs (dropLeadingWs s.data.reverse).reverse)⟩

/-- The JS `toLowerCase()` method: lower-case every character. -/
def jsToLower (s : String) : String :=
  ⟨s.data.map Char.toLower⟩

/-- The JS `split(",")` method on a character list: cut at every comma;
an empty input yields one empty piece, like JS. -/
def splitCommaAux (acc : List Char) : List Char → List (List Char)
  | [] => [acc.reverse]
  | c :: cs =>
    if c = ',' then acc.reverse :: splitCommaAux [] cs
    else splitCommaAux (c :: acc) cs

/-- The JS `split(",")` method. -/
def jsSplitComma (s : String) : List String :=
  (splitCommaAux [] s.data).map (fun cs => ⟨cs⟩)

/-- First-occurrence deduplication with a seen-set accumulator. -/
def jsSetDedupAux (seen : List String) : List String → List String
  | [] => []
  | x :: xs =>
    if x ∈ seen then jsSetDedupAux seen xs
    else x :: jsSetDedupAux (x :: seen) xs

/-- The semantics of `[...new Set(list)]` in JavaScript: keep the first
occurrence of each element, in order. -/
def jsSetDedup (l : List String) : List String :=
  jsSetDedupAux [] l

/-- The definition `patreonRoleIds` from index.js lines 14-17: split the raw
comma-separated value on commas, trim whitespace from each piece, drop
pieces that are empty (falsy), and deduplicate via `new Set`. -/
def patreonRoleIds (raw : String) : List String :=
  jsSetDedup (((jsSplitComma raw).map jsTrim).filter (fun id => id ≠ ""))

/-- The startup validation of index.js lines 25-28: the process exits
(refuses to start) iff any required environment value is falsy
(absent/empty) or the parsed Patreon role-id list is empty. -/
def startupExits (c : Config) : Bool :=
  c.token = "" || c.guildId = "" || c.unverifiedRoleId = "" ||
  c.memberRoleId = "" || c.verificationChannelId = "" ||
  c.logChannelId = "" || (patreonRoleIds c.patreonRoleIdsRaw).length == 0

/-- A role-mutation call issued to the directory:
`member.roles.add(role)` or `member.roles.remove(role)`. -/
inductive Mut where
  | add (roleId : String)
  | remove (roleId : String)
deriving DecidableEq, Repr

/-- A guild member as observed through the directory: opaque id, bot
flag, the guild it belongs to, and the currently cached set of role ids
(including the implicit everyone role). -/
structure Member where
  id : String
  isBot : Bool
  guildId : String
  roles : List String
deriving DecidableEq, Repr

/-- The directory-dependent environment of a pending-tier
reconciliation call: whether the bot holds Manage Roles, the position of
the highest role of the bot, the fetched position of the unverified role
(`none` when `guild.roles.fetch` fails), and whether the awaited
`member.roles.add` call throws. -/
structure Env where
  botHasManageRoles : Bool
  botHighestPos : Nat
  unverifiedRolePos : Option Nat
  addRoleFails : Bool
deriving DecidableEq, Repr

/-- Log events emitted by `assignUnverifiedRole` and
`checkAndAssignUnverifiedRoles`. -/
inductive ALog where
  | noPermission
  | roleNotFound
  | hierarchyViolation
  | assigned (memberId : String)
  | addFailed (memberId : String)
deriving DecidableEq, Repr

/-- Result of one pending-tier reconciliation call: the (possibly
updated) member, the mutation calls issued, and the log events emitted. -/
structure AssignResult where
  member : Member
  mutations : List Mut
  logs : List ALog
deriving DecidableEq, Repr

/-- The function `assignUnverifiedRole` from index.js lines 74-111.  Ignores bots and
members of other guilds; aborts with a log on a missing Manage Roles
permission, an unfetchable unverified role, or an unverified role whose
position is at or above the position of the highest role of the bot; is a
silent no-op when the member already holds the role; otherwise issues one
add call (which may throw, caught and logged). -/
def assignUnverifiedRole (cfg : Config) (env : Env) (m : Member) : AssignResult :=
  if m.isBot then ⟨m, [], []⟩
  else if m.guildId ≠ cfg.guildId then ⟨m, [], []⟩
  else if ¬ env.botHasManageRoles then ⟨m, [], [.noPermission]⟩
  else
    match env.unverifiedRolePos with
    | none => ⟨m, [], [.roleNotFound]⟩
    | some pos =>
      if env.botHighestPos ≤ pos then ⟨m, [], [.hierarchyViolation]⟩
      else if cfg.unverifiedRoleId ∈ m.roles then ⟨m, [], []⟩
      else if env.addRoleFails then
        ⟨m, [.add cfg.unverifiedRoleId], [.addFailed m.id]⟩
      else
        ⟨{ m with roles := cfg.unverifiedRoleId :: m.roles },
         [.add cfg.unverifiedRoleId], [.assigned m.id]⟩

/-- The per-member body of the sweep loop in
`checkAndAssignUnverifiedRoles` (index.js lines 148-156): skip bots, and
call `assignUnverifiedRole` only for a member whose cached role set has
size exactly 1 (only the implicit everyone role) and who does not already
hold the unverified role. -/
def pendingSweepMember (cfg : Config) (env : Env) (m : Member) : AssignResult :=
  if m.isBot then ⟨m, [], []⟩
  else if m.roles.length = 1 ∧ cfg.unverifiedRoleId ∉ m.roles then
    assignUnverifiedRole cfg env m
  else ⟨m, [], []⟩

/-- Result of a full pending-tier sweep. -/
structure SweepResult where
  members : List Member
  mutations : List Mut
  logs : List ALog
deriving DecidableEq, Repr

/-- The function `checkAndAssignUnverifiedRoles` from index.js lines 116-163: abort
with a log when the bot lacks Manage Roles, the unverified role cannot be
fetched, or its position is at or above the position of the highest role
of the bot; otherwise run the per-member loop over the full member
list. -/
def checkAndAssignUnverifiedRoles (cfg : Config) (env : Env)
    (members : List Member) : SweepResult :=
  if ¬ env.botHasManageRoles then ⟨members, [], [.noPermission]⟩
  else
    match env.unverifiedRolePos with
    | none => ⟨members, [], [.roleNotFound]⟩
    | some pos =>
      if env.botHighestPos ≤ pos then ⟨members, [], [.hierarchyViolation]⟩
      else
        let results := members.map (pendingSweepMember cfg env)
        ⟨results.map (·.member), results.flatMap (·.mutations),
         results.flatMap (·.logs)⟩

/-- The `GuildMemberAdd` handler from index.js lines 297-327 (welcome
message sending omitted — it issues no role mutation): ignore joins in
other guilds and bot joins, then call `assignUnverifiedRole`
unconditionally. -/
def guildMemberAdd (cfg : Config) (env : Env) (m : Member) : AssignResult :=
  if m.guildId ≠ cfg.guildId then ⟨m, [], []⟩
  else if m.isBot then ⟨m, [], []⟩
  else assignUnverifiedRole cfg env m

/-- The directory-dependent environment of one `checkPatreonMembers`
sweep: bot permission and highest-role position, fetched positions of the
member and unverified roles (`none` = fetch failed), the configured
Patreon role ids whose fetch returned null, and the member ids whose
`roles.add` / `roles.remove` calls throw. -/
structure PatreonEnv where
  botHasManageRoles : Bool
  botHighestPos : Nat
  memberRolePos : Option Nat
  unverifiedRolePos : Option Nat
  patreonFetchFailed : List String
  addFailsFor : List String
  removeFailsFor : List String
deriving DecidableEq, Repr

/-- The Patreon roles successfully fetched (index.js lines 189-191):
each configured id is fetched and the null results are dropped. -/
def foundPatreonIds (cfg : Config) (env : PatreonEnv) : List String :=
  (patreonRoleIds cfg.patreonRoleIdsRaw).filter
    (fun id => id ∉ env.patreonFetchFailed)

/-- The member filter of index.js lines 228-232: non-bot members who do
not hold the member role and hold at least one of the found Patreon
roles. -/
def patreonNeedsUpdate (cfg : Config) (found : List String) (m : Member) : Bool :=
  !m.isBot && !(cfg.memberRoleId ∈ m.roles) &&
    found.any (fun p => p ∈ m.roles)

/-- Outcome of the per-member mutation block (index.js lines 243-258)
for one member: updated member, issued mutation calls, and whether the
block reached its success log (`false` = the catch logged an error). -/
structure PatreonMemberResult where
  member : Member
  mutations : List Mut
  success : Bool
deriving DecidableEq, Repr

/-- The per-member mutation block of `checkPatreonMembers` (index.js
lines 243-258): add the member role first; if that throws, the catch
logs an error and nothing else is issued.  Then, when the unverified
role was fetched and the member holds it, remove it; a throw there is
caught and logged as an error for this member only. -/
def patreonProcessMember (cfg : Config) (env : PatreonEnv) (m : Member) :
    PatreonMemberResult :=
  if m.id ∈ env.addFailsFor then
    ⟨m, [.add cfg.memberRoleId], false⟩
  else
    let m1 : Member := { m with roles := cfg.memberRoleId :: m.roles }
    if env.unverifiedRolePos.isSome ∧ cfg.unverifiedRoleId ∈ m1.roles then
      if m.id ∈ env.removeFailsFor then
        ⟨m1, [.add cfg.memberRoleId, .remove cfg.unverifiedRoleId], false⟩
      else
        ⟨{ m1 with roles := m1.roles.filter (fun r => r ≠ cfg.unverifiedRoleId) },
         [.add cfg.memberRoleId, .remove cfg.unverifiedRoleId], true⟩
    else
      ⟨m1, [.add cfg.memberRoleId], true⟩

/-- Log events emitted by `checkPatreonMembers`. -/
inductive PLog where
  | noPermission
  | memberRoleNotFound
  | noPatreonRolesFound
  | hierarchyViolation (roleId : String)
  | foundMembers (n : Nat)
  | memberSuccess (memberId : String)
  | memberError (memberId : String)
deriving DecidableEq, Repr

/-- Result of a full entitlement sweep. -/
structure PatreonResult where
  members : List Member
  mutations : List Mut
  logs : List PLog
deriving DecidableEq, Repr

/-- The per-member outcome log line: the success log from the try block
or the error log from the catch. -/
def patreonMemberLog (r : PatreonMemberResult) : PLog :=
  if r.success then .memberSuccess r.member.id else .memberError r.member.id

/-- The function `checkPatreonMembers` from index.js lines 168-269: abort (no
mutation) when the bot lacks Manage Roles, the member role cannot be
fetched, no configured Patreon role can be fetched, or the member role —
or the unverified role, when it was fetched — sits at or above the
position of the highest role of the bot.  Otherwise process every member
matching the filter, isolating each member in its own try/catch. -/
def checkPatreonMembers (cfg : Config) (env : PatreonEnv)
    (members : List Member) : PatreonResult :=
  if ¬ env.botHasManageRoles then ⟨members, [], [.noPermission]⟩
  else
    match env.memberRolePos with
    | none => ⟨members, [], [.memberRoleNotFound]⟩
    | some mp =>
      let found := foundPatreonIds cfg env
      if found.isEmpty then ⟨members, [], [.noPatreonRolesFound]⟩
      else
        if env.botHighestPos ≤ mp ∨
           (env.unverifiedRolePos.any fun up => env.botHighestPos ≤ up) then
          ⟨members, [],
           (if env.botHighestPos ≤ mp
            then [PLog.hierarchyViolation cfg.memberRoleId] else []) ++
           (if env.unverifiedRolePos.any fun up => env.botHighestPos ≤ up
            then [PLog.hierarchyViolation cfg.unverifiedRoleId] else [])⟩
        else
          let toUpdate := members.filter (patreonNeedsUpdate cfg found)
          let results := toUpdate.map (patreonProcessMember cfg env)
          ⟨members.map (fun m =>
             if patreonNeedsUpdate cfg found m
             then (patreonProcessMember cfg env m).member else m),
           results.flatMap (·.mutations),
           (if toUpdate.length > 0 then [PLog.foundMembers toUpdate.length] else []) ++
           results.map patreonMemberLog⟩

/-- The constant user-facing reply messages of the `MessageCreate`
handler.  Each constructor stands for one fixed string literal of
index.js: the role-permission failure (line 359), the missing-role
failure (line 416), the hierarchy failure (line 437), the
already-verified notice (line 449), the success confirmation (line 477),
the edited success confirmation after a cleanup error (line 517), and
the top-level generic error (line 535).  None of them carries any
error detail. -/
inductive Reply where
  | permFail
  | rolesFail
  | hierFail
  | notNeeded
  | success
  | successPartial
  | genericError
deriving DecidableEq, Repr

/-- Log events emitted by the `MessageCreate` handler.  The two
constructors carrying a `detail` string model the log lines that
interpolate `error.message`. -/
inductive VLog where
  | memberUnresolved
  | noRolePermission
  | noManageMessagesWarn
  | noReadHistoryWarn
  | roleNotFound
  | hierarchyTooHigh (roleId : String)
  | notNeededInfo (memberId : String)
  | verified (memberId : String)
  | cleanupError (detail : String)
  | topError (detail : String)
deriving DecidableEq, Repr

/-- Input state of one `MessageCreate` invocation: the triggering
message fields, whether `message.member` resolved, the member, channel
permissions of the bot, fetched role positions, and whether the awaited
role mutations or the message cleanup throw (`errorDetail` is the raw
`error.message` of whichever call throws). -/
structure VerifyInput where
  authorBot : Bool
  messageGuildId : Option String
  channelId : String
  content : String
  memberResolved : Bool
  member : Member
  botHasManageRoles : Bool
  canManageMessages : Bool
  canReadHistory : Bool
  botHighestPos : Nat
  unverifiedRolePos : Option Nat
  memberRolePos : Option Nat
  welcomeFound : Bool
  removeFails : Bool
  addFails : Bool
  cleanupFails : Bool
  errorDetail : String
deriving DecidableEq, Repr

/-- Observable outcome of one `MessageCreate` invocation: the replies
sent to the triggering member (in order; an edited reply appears once,
with its final content), the role-mutation calls issued, and the log
events emitted. -/
structure VerifyOutput where
  replies : List Reply
  mutations : List Mut
  logs : List VLog
deriving DecidableEq, Repr

/-- The body of the `MessageCreate` handler after the entry guard and
member resolution (index.js lines 346-540): Manage Roles check with the
permission-failure reply; permission warnings for Manage Messages and
Read Message History; role fetch with the missing-role reply; hierarchy
checks with the hierarchy reply; the already-verified branch with the
not-needed reply; otherwise remove unverified then add member (a throw
in either is caught at top level: generic-error reply), success
confirmation, and opportunistic cleanup whose failure only edits the
confirmation. -/
def verifyCore (cfg : Config) (i : VerifyInput) : VerifyOutput :=
    let warnLogs : List VLog :=
      (if ¬ i.canManageMessages then [VLog.noManageMessagesWarn] else []) ++
      (if ¬ i.canReadHistory then [VLog.noReadHistoryWarn] else [])
    if ¬ i.botHasManageRoles then
      ⟨[.permFail], [], VLog.noRolePermission :: warnLogs⟩
    else if i.unverifiedRolePos.isNone ∨ i.memberRolePos.isNone then
      ⟨[.rolesFail], [], warnLogs ++ [.roleNotFound]⟩
    else
      let up := i.unverifiedRolePos.getD 0
      let mp := i.memberRolePos.getD 0
      let unvHigh := i.botHighestPos ≤ up
      let memHigh := i.botHighestPos ≤ mp
      if unvHigh ∨ memHigh then
        ⟨[.hierFail], [],
         warnLogs ++
         (if unvHigh then [VLog.hierarchyTooHigh cfg.unverifiedRoleId] else []) ++
         (if memHigh then [VLog.hierarchyTooHigh cfg.memberRoleId] else [])⟩
      else if cfg.unverifiedRoleId ∉ i.member.roles then
        ⟨[.notNeeded], [], warnLogs ++ [.notNeededInfo i.member.id]⟩
      else if i.removeFails then
        ⟨[.genericError], [.remove cfg.unverifiedRoleId],
         warnLogs ++ [.topError i.errorDetail]⟩
      else if i.addFails then
        ⟨[.genericError], [.remove cfg.unverifiedRoleId, .add cfg.memberRoleId],
         warnLogs ++ [.topError i.errorDetail]⟩
      else if i.canManageMessages ∧ i.cleanupFails then
        ⟨[.successPartial], [.remove cfg.unverifiedRoleId, .add cfg.memberRoleId],
         warnLogs ++ [.verified i.member.id, .cleanupError i.errorDetail]⟩
      else
        ⟨[.success], [.remove cfg.unverifiedRoleId, .add cfg.memberRoleId],
         warnLogs ++ [.verified i.member.id]⟩

/-- The `MessageCreate` handler from index.js lines 330-541.  Entry
guard (line 332): author is a bot, message outside the configured guild,
outside the verification channel, or content not exactly the verify
keyword after trim/lower-casing — ignored with no effect.  An
unresolvable `message.member` is logged and produces no reply.
Otherwise the post-guard body `verifyCore` runs. -/
def messageCreate (cfg : Config) (i : VerifyInput) : VerifyOutput :=
  if i.authorBot then ⟨[], [], []⟩
  else if i.messageGuildId ≠ some cfg.guildId then ⟨[], [], []⟩
  else if i.channelId ≠ cfg.verificationChannelId then ⟨[], [], []⟩
  else if jsToLower (jsTrim i.content) ≠ "?verify" then ⟨[], [], []⟩
  else if ¬ i.memberResolved then ⟨[], [], [.memberUnresolved]⟩
  else verifyCore cfg i

/-- The effect of one role-mutation call on the cached role set of a member:
`roles.add` prepends the role id, `roles.remove` drops it. -/
def applyMut (roles : List String) : Mut → List String
  | .add r => r :: roles
  | .remove r => roles.filter (fun x => x ≠ r)

/-- The member id of a per-member outcome log line of the entitlement
sweep (`none` for sweep-level log lines). -/
def patreonOutcomeId : PLog → Option String
  | .memberSuccess i => some i
  | .memberError i => some i
  | _ => none

/-! ## Helper lemmas -/

theorem mem_jsSetDedupAux {x : String} {seen l : List String} :
    x ∈ jsSetDedupAux seen l ↔ x ∈ l ∧ x ∉ seen := by
  induction l generalizing seen with
  | nil => simp [jsSetDedupAux]
  | cons y ys ih =>
    simp only [jsSetDedupAux]
    by_cases hy : y ∈ seen
    · rw [if_pos hy, ih]
      constructor
      · rintro ⟨h1, h2⟩
        exact ⟨List.mem_cons_of_mem _ h1, h2⟩
      · rintro ⟨h1, h2⟩
        rcases List.mem_cons.mp h1 with rfl | h1
        · exact absurd hy h2
        · exact ⟨h1, h2⟩
    · rw [if_neg hy]
      by_cases hxy : x = y
      · subst hxy
        simp [hy]
      · simp [List.mem_cons, ih, hxy]

theorem nodup_jsSetDedupAux (seen l : List String) :
    (jsSetDedupAux seen l).Nodup := by
  induction l generalizing seen with
  | nil => simp [jsSetDedupAux]
  | cons y ys ih =>
    simp only [jsSetDedupAux]
    split
    · exact ih _
    · refine List.nodup_cons.mpr ⟨fun hmem => ?_, ih _⟩
      exact (mem_jsSetDedupAux.mp hmem).2 (List.mem_cons_self _ _)

theorem mem_patreonRoleIds {x raw : String} :
    x ∈ patreonRoleIds raw ↔
      x ≠ "" ∧ x ∈ (jsSplitComma raw).map jsTrim := by
  unfold patreonRoleIds jsSetDedup
  rw [mem_jsSetDedupAux]
  simp [List.mem_filter, and_comm]

/-! ## Claims -/

/-- C10: at startup, the entitlement-role id list is parsed from the
comma-separated configuration value by splitting on commas, trimming
whitespace, dropping empty entries, and deduplicating (the parsed list
has no duplicates and no empty entries, and contains exactly the
nonempty trimmed comma-separated pieces); the process refuses to start
(exits) iff some required configuration value is absent/empty or the
resulting entitlement list is empty. -/
theorem claim_C10 :
    (∀ raw : String,
      (patreonRoleIds raw).Nodup ∧
      (∀ x, x ∈ patreonRoleIds raw ↔
        x ≠ "" ∧ x ∈ (jsSplitComma raw).map jsTrim)) ∧
    (∀ c : Config, startupExits c = true ↔
      (c.token = "" ∨ c.guildId = "" ∨ c.unverifiedRoleId = "" ∨
       c.memberRoleId = "" ∨ c.verificationChannelId = "" ∨
       c.logChannelId = "" ∨ patreonRoleIds c.patreonRoleIdsRaw = [])) := by
  refine ⟨fun raw => ⟨nodup_jsSetDedupAux _ _, fun x => mem_patreonRoleIds⟩, fun c => ?_⟩
  simp only [startupExits, Bool.or_eq_true, decide_eq_true_eq, beq_iff_eq,
    List.length_eq_zero]
  tauto

/-- Witness for C10 at a concrete raw value and configuration. -/
theorem claim_C10_witness :
    (patreonRoleIds " a, b,,a ").Nodup ∧
    (startupExits ⟨"tok", "g", "U", "M", "V", "L", ""⟩ = true ↔
      ("tok" = "" ∨ "g" = "" ∨ "U" = "" ∨ "M" = "" ∨ "V" = "" ∨ "L" = "" ∨
       patreonRoleIds "" = [])) :=
  ⟨(claim_C10.1 " a, b,,a ").1, claim_C10.2 ⟨"tok", "g", "U", "M", "V", "L", ""⟩⟩

/-- C6: whenever the position of the unverified role is at or above the
position of the highest role of the bot, no pending-tier reconciliation
call issues any role mutation — the mutation branch is unreachable —
and, for an invocation that reaches the hierarchy check (non-bot member
of the configured guild with Manage Roles held, or the sweep with Manage
Roles held), a hierarchy-violation log entry is emitted. -/
theorem claim_C6 (cfg : Config) (env : Env) (p : Nat)
    (hrole : env.unverifiedRolePos = some p)
    (hrank : env.botHighestPos ≤ p) :
    (∀ m : Member, (assignUnverifiedRole cfg env m).mutations = []) ∧
    (∀ m : Member, m.isBot = false → m.guildId = cfg.guildId →
      env.botHasManageRoles = true →
      (assignUnverifiedRole cfg env m).mutations = [] ∧
      ALog.hierarchyViolation ∈ (assignUnverifiedRole cfg env m).logs) ∧
    (∀ members : List Member, env.botHasManageRoles = true →
      (checkAndAssignUnverifiedRoles cfg env members).mutations = [] ∧
      ALog.hierarchyViolation ∈ (checkAndAssignUnverifiedRoles cfg env members).logs) := by
  refine ⟨fun m => ?_, fun m hb hg hp => ?_, fun ms hp => ?_⟩
  · simp only [assignUnverifiedRole, hrole]
    split_ifs <;> simp_all
  · simp [assignUnverifiedRole, hb, hg, hp, hrole, hrank]
  · simp [checkAndAssignUnverifiedRoles, hp, hrole, hrank]

/-- Witness for C6 at a concrete configuration, environment and member. -/
theorem claim_C6_witness :
    ((⟨true, 1, some 5, false⟩ : Env).unverifiedRolePos = some 5 ∧
     (⟨true, 1, some 5, false⟩ : Env).botHighestPos ≤ 5) ∧
    (assignUnverifiedRole ⟨"tok", "g", "U", "M", "V", "L", "P"⟩
      ⟨true, 1, some 5, false⟩ ⟨"bob", false, "g", ["e"]⟩).mutations = [] ∧
    ALog.hierarchyViolation ∈
      (assignUnverifiedRole ⟨"tok", "g", "U", "M", "V", "L", "P"⟩
        ⟨true, 1, some 5, false⟩ ⟨"bob", false, "g", ["e"]⟩).logs :=
  ⟨⟨rfl, by decide⟩,
   (claim_C6 ⟨"tok", "g", "U", "M", "V", "L", "P"⟩ ⟨true, 1, some 5, false⟩ 5
      rfl (by decide)).2.1 ⟨"bob", false, "g", ["e"]⟩ rfl rfl rfl⟩

/-- C7 counterexample: a member state that already holds the unverified
role.  Both successive calls are no-ops, so the two calls issue zero
add-role mutations in total, not exactly one — refuting the claim as
stated for every member state.  The environment grants Manage Roles and
a manageable role, and the member is a non-bot member of the configured
guild, so the zero count is not due to an aborted precondition. -/
theorem claim_C7_counterexample :
    ((assignUnverifiedRole ⟨"tok", "g", "U", "M", "V", "L", "P"⟩
        ⟨true, 5, some 1, false⟩ ⟨"alice", false, "g", ["U", "e"]⟩).mutations ++
      (assignUnverifiedRole ⟨"tok", "g", "U", "M", "V", "L", "P"⟩
        ⟨true, 5, some 1, false⟩
        (assignUnverifiedRole ⟨"tok", "g", "U", "M", "V", "L", "P"⟩
          ⟨true, 5, some 1, false⟩
          ⟨"alice", false, "g", ["U", "e"]⟩).member).mutations).length ≠ 1 ∧
    ("alice" : String) ≠ "" ∧
    (⟨"alice", false, "g", ["U", "e"]⟩ : Member).isBot = false ∧
    (⟨"alice", false, "g", ["U", "e"]⟩ : Member).guildId = "g" := by
  decide

/-- C7 (amended): pending-tier reconciliation is idempotent — two
successive calls on the same member state issue at most one add-role
mutation in total and the second call never issues a mutation; the
total is exactly one when the preconditions pass and the member
initially lacks the unverified role; a member already holding the role
is a silent no-op (no mutation and no log entry). -/
theorem claim_C7 (cfg : Config) (env : Env) (m : Member)
    (hfail : env.addRoleFails = false) :
    (assignUnverifiedRole cfg env
      (assignUnverifiedRole cfg env m).member).mutations = [] ∧
    ((assignUnverifiedRole cfg env m).mutations ++
      (assignUnverifiedRole cfg env
        (assignUnverifiedRole cfg env m).member).mutations).length ≤ 1 ∧
    (∀ p : Nat, m.isBot = false → m.guildId = cfg.guildId →
      env.botHasManageRoles = true → env.unverifiedRolePos = some p →
      p < env.botHighestPos →
      ((cfg.unverifiedRoleId ∉ m.roles →
        ((assignUnverifiedRole cfg env m).mutations ++
          (assignUnverifiedRole cfg env
            (assignUnverifiedRole cfg env m).member).mutations) =
          [Mut.add cfg.unverifiedRoleId]) ∧
       (cfg.unverifiedRoleId ∈ m.roles →
        (assignUnverifiedRole cfg env m).mutations = [] ∧
        (assignUnverifiedRole cfg env m).logs = []))) := by
  by_cases hb : m.isBot
  · simp [assignUnverifiedRole, hb]
  by_cases hg : m.guildId = cfg.guildId
  case neg => simp [assignUnverifiedRole, hg, hb]
  by_cases hp : env.botHasManageRoles
  case neg => simp [assignUnverifiedRole, hg, hb, hp]
  rcases hr : env.unverifiedRolePos with _ | p
  · simp [assignUnverifiedRole, hg, hb, hp, hr]
  by_cases hh : env.botHighestPos ≤ p
  · simp [assignUnverifiedRole, hg, hb, hp, hr, hh]
  by_cases hmem : cfg.unverifiedRoleId ∈ m.roles
  · simp [assignUnverifiedRole, hg, hb, hp, hr, hh, hmem]
  · simp [assignUnverifiedRole, hg, hb, hp, hr, hh, hmem, hfail]

/-- Witness for C7 at a concrete configuration, environment and member
(the member initially lacks the unverified role, so the two successive
calls issue exactly one add-role mutation in total). -/
theorem claim_C7_witness :
    (⟨true, 5, some 1, false⟩ : Env).addRoleFails = false ∧
    (assignUnverifiedRole ⟨"tok", "g", "U", "M", "V", "L", "P"⟩
      ⟨true, 5, some 1, false⟩
      (assignUnverifiedRole ⟨"tok", "g", "U", "M", "V", "L", "P"⟩
        ⟨true, 5, some 1, false⟩
        ⟨"carl", false, "g", ["e"]⟩).member).mutations = [] :=
  ⟨rfl,
   (claim_C7 ⟨"tok", "g", "U", "M", "V", "L", "P"⟩ ⟨true, 5, some 1, false⟩
     ⟨"carl", false, "g", ["e"]⟩ rfl).1⟩

/-- C4: in the per-member mutation block of the entitlement sweep, for a
non-bot member who holds the unverified role (with the unverified role
fetched and the add call not failing), the add of the member role is
issued strictly before the removal of the unverified role — the issued
mutation list is exactly add-then-remove — and at each of the three
states around the two mutations the member holds the member role or the
unverified role, so the member is never observed holding neither. -/
theorem claim_C4 (cfg : Config) (env : PatreonEnv) (m : Member)
    (hbot : m.isBot = false)
    (hne : cfg.memberRoleId ≠ cfg.unverifiedRoleId)
    (hunv : cfg.unverifiedRoleId ∈ m.roles)
    (hfetched : env.unverifiedRolePos.isSome)
    (hadd : m.id ∉ env.addFailsFor) :
    (patreonProcessMember cfg env m).mutations =
      [Mut.add cfg.memberRoleId, Mut.remove cfg.unverifiedRoleId] ∧
    (cfg.memberRoleId ∈ m.roles ∨ cfg.unverifiedRoleId ∈ m.roles) ∧
    cfg.memberRoleId ∈ applyMut m.roles (Mut.add cfg.memberRoleId) ∧
    cfg.memberRoleId ∈
      applyMut (applyMut m.roles (Mut.add cfg.memberRoleId))
        (Mut.remove cfg.unverifiedRoleId) := by
  refine ⟨?_, Or.inr hunv, by simp [applyMut], by simp [applyMut, hne]⟩
  simp only [patreonProcessMember, if_neg hadd]
  rw [if_pos ⟨hfetched, List.mem_cons_of_mem _ hunv⟩]
  split <;> rfl

/-- Witness for C4 at a concrete configuration, environment and member. -/
theorem claim_C4_witness :
    (⟨"bob", false, "g", ["e", "P", "U"]⟩ : Member).isBot = false ∧
    ("M" : String) ≠ "U" ∧
    "U" ∈ (⟨"bob", false, "g", ["e", "P", "U"]⟩ : Member).roles ∧
    (patreonProcessMember ⟨"tok", "g", "U", "M", "V", "L", "P"⟩
      ⟨true, 10, some 1, some 2, [], [], []⟩
      ⟨"bob", false, "g", ["e", "P", "U"]⟩).mutations =
      [Mut.add "M", Mut.remove "U"] :=
  ⟨rfl, by decide, by decide,
   (claim_C4 ⟨"tok", "g", "U", "M", "V", "L", "P"⟩
     ⟨true, 10, some 1, some 2, [], [], []⟩
     ⟨"bob", false, "g", ["e", "P", "U"]⟩
     rfl (by decide) (by decide) rfl (by decide)).1⟩

/-- C9: the entitlement sweep is atomic with respect to its capability
precondition — when the member role was fetched but its position, or
the position of the fetched unverified role (the removal target), is at
or above the position of the highest role of the bot, the sweep aborts
with no mutation at all and leaves every member unchanged; in
particular the member role is never added. -/
theorem claim_C9 (cfg : Config) (env : PatreonEnv) (members : List Member)
    (mp : Nat) (hmr : env.memberRolePos = some mp)
    (hfail : env.botHighestPos ≤ mp ∨
      ∃ up, env.unverifiedRolePos = some up ∧ env.botHighestPos ≤ up) :
    (checkPatreonMembers cfg env members).mutations = [] ∧
    (checkPatreonMembers cfg env members).members = members := by
  by_cases hperm : env.botHasManageRoles
  · rcases hfail with hle | ⟨up, hup, hle⟩
    · simp only [checkPatreonMembers, hperm, not_true_eq_false, if_false, hmr]
      split
      · exact ⟨rfl, rfl⟩
      · rw [if_pos (Or.inl hle)]
        exact ⟨rfl, rfl⟩
    · simp only [checkPatreonMembers, hperm, not_true_eq_false, if_false, hmr]
      split
      · exact ⟨rfl, rfl⟩
      · rw [if_pos (Or.inr (by simp [hup, hle]))]
        exact ⟨rfl, rfl⟩
  · simp [checkPatreonMembers, hperm]

/-- Witness for C9 at a concrete configuration and environment (the
member role sits above the highest role of the bot). -/
theorem claim_C9_witness :
    (checkPatreonMembers ⟨"tok", "g", "U", "M", "V", "L", "P"⟩
      ⟨true, 5, some 9, some 2, [], [], []⟩
      [⟨"bob", false, "g", ["e", "P", "U"]⟩]).mutations = [] ∧
    (checkPatreonMembers ⟨"tok", "g", "U", "M", "V", "L", "P"⟩
      ⟨true, 5, some 9, some 2, [], [], []⟩
      [⟨"bob", false, "g", ["e", "P", "U"]⟩]).members =
      [⟨"bob", false, "g", ["e", "P", "U"]⟩] :=
  claim_C9 ⟨"tok", "g", "U", "M", "V", "L", "P"⟩
    ⟨true, 5, some 9, some 2, [], [], []⟩
    [⟨"bob", false, "g", ["e", "P", "U"]⟩] 9 rfl (Or.inl (by decide))

/-- C5 counterexample: a non-bot member who holds an entitlement role
and the unverified role but also already holds the member role.  The
filter of the sweep skips members who hold the member role, so the pass
leaves this member unchanged and the unverified role is not removed —
refuting the claim for every member holding an entitlement role and the
unverified role. -/
theorem claim_C5_counterexample :
    (⟨"bob", false, "g", ["e", "M", "P", "U"]⟩ : Member).isBot = false ∧
    "P" ∈ patreonRoleIds "P" ∧
    "P" ∈ (⟨"bob", false, "g", ["e", "M", "P", "U"]⟩ : Member).roles ∧
    "U" ∈ (⟨"bob", false, "g", ["e", "M", "P", "U"]⟩ : Member).roles ∧
    (checkPatreonMembers ⟨"tok", "g", "U", "M", "V", "L", "P"⟩
      ⟨true, 10, some 1, some 2, [], [], []⟩
      [⟨"bob", false, "g", ["e", "M", "P", "U"]⟩]).members =
      [⟨"bob", false, "g", ["e", "M", "P", "U"]⟩] ∧
    (checkPatreonMembers ⟨"tok", "g", "U", "M", "V", "L", "P"⟩
      ⟨true, 10, some 1, some 2, [], [], []⟩
      [⟨"bob", false, "g", ["e", "M", "P", "U"]⟩]).mutations = [] := by
  decide

/-- C5 (amended): for every non-bot member who holds a fetched
entitlement role and the unverified role and does not yet hold the
member role, after one entitlement sweep in which the capability checks
pass and the mutation calls of that member succeed, the member holds the
member role and no longer holds the unverified role. -/
theorem claim_C5 (cfg : Config) (env : PatreonEnv) (members : List Member)
    (m : Member) (mp up : Nat) (pid : String)
    (hperm : env.botHasManageRoles = true)
    (hmr : env.memberRolePos = some mp) (hmph : mp < env.botHighestPos)
    (hur : env.unverifiedRolePos = some up) (huph : up < env.botHighestPos)
    (hmem : m ∈ members) (hbot : m.isBot = false)
    (hpid : pid ∈ foundPatreonIds cfg env) (hpidm : pid ∈ m.roles)
    (hunv : cfg.unverifiedRoleId ∈ m.roles)
    (hnomem : cfg.memberRoleId ∉ m.roles)
    (hne : cfg.memberRoleId ≠ cfg.unverifiedRoleId)
    (haf : m.id ∉ env.addFailsFor) (hrf : m.id ∉ env.removeFailsFor) :
    ∃ m2 ∈ (checkPatreonMembers cfg env members).members,
      m2.id = m.id ∧ cfg.memberRoleId ∈ m2.roles ∧
      cfg.unverifiedRoleId ∉ m2.roles := by
  have hfoundne : (foundPatreonIds cfg env).isEmpty = false := by
    rw [List.isEmpty_eq_false]
    exact List.ne_nil_of_mem hpid
  have hupd : patreonNeedsUpdate cfg (foundPatreonIds cfg env) m = true := by
    simp only [patreonNeedsUpdate, hbot, Bool.not_false, Bool.true_and,
      Bool.and_eq_true, Bool.not_eq_true', decide_eq_false_iff_not,
      List.any_eq_true, decide_eq_true_eq]
    exact ⟨hnomem, pid, hpid, hpidm⟩
  have hproc : (patreonProcessMember cfg env m).member =
      { m with roles := (cfg.memberRoleId :: m.roles).filter fun r => r ≠ cfg.unverifiedRoleId } := by
    simp only [patreonProcessMember, if_neg haf]
    rw [if_pos ⟨by simp [hur], List.mem_cons_of_mem _ hunv⟩, if_neg hrf]
  have hmembers : (checkPatreonMembers cfg env members).members =
      members.map (fun m2 =>
        if patreonNeedsUpdate cfg (foundPatreonIds cfg env) m2
        then (patreonProcessMember cfg env m2).member else m2) := by
    simp only [checkPatreonMembers, hperm, not_true_eq_false, if_false, hmr,
      hfoundne, Bool.false_eq_true, if_false]
    rw [if_neg (not_or.mpr ⟨hmph.not_le, by simp [hur, huph.not_le]⟩)]
  refine ⟨(patreonProcessMember cfg env m).member, ?_, ?_, ?_, ?_⟩
  · rw [hmembers]
    have hmap := List.mem_map_of_mem (fun m2 =>
      if patreonNeedsUpdate cfg (foundPatreonIds cfg env) m2
      then (patreonProcessMember cfg env m2).member else m2) hmem
    simpa [hupd] using hmap
  · rw [hproc]
  · rw [hproc]
    simp [List.mem_filter, hne]
  · rw [hproc]
    simp [List.mem_filter]

/-- Witness for C5 at a concrete configuration, environment and member
list. -/
theorem claim_C5_witness :
    ∃ m2 ∈ (checkPatreonMembers ⟨"tok", "g", "U", "M", "V", "L", "P"⟩
        ⟨true, 10, some 1, some 2, [], [], []⟩
        [⟨"bob", false, "g", ["e", "P", "U"]⟩]).members,
      m2.id = "bob" ∧ "M" ∈ m2.roles ∧ "U" ∉ m2.roles :=
  claim_C5 ⟨"tok", "g", "U", "M", "V", "L", "P"⟩
    ⟨true, 10, some 1, some 2, [], [], []⟩
    [⟨"bob", false, "g", ["e", "P", "U"]⟩]
    ⟨"bob", false, "g", ["e", "P", "U"]⟩ 1 2 "P"
    rfl rfl (by decide) rfl (by decide)
    (by decide) rfl (by decide) (by decide)
    (by decide) (by decide) (by decide) (by decide) (by decide)

theorem patreonProcessMember_id (cfg : Config) (env : PatreonEnv) (m : Member) :
    (patreonProcessMember cfg env m).member.id = m.id := by
  unfold patreonProcessMember
  split
  · rfl
  · dsimp only
    split
    · split <;> rfl
    · rfl

theorem patreonOutcomeId_log (r : PatreonMemberResult) :
    patreonOutcomeId (patreonMemberLog r) = some r.member.id := by
  unfold patreonMemberLog
  split <;> rfl

theorem filterMap_outcome (l : List PatreonMemberResult) :
    (l.map patreonMemberLog).filterMap patreonOutcomeId =
      l.map (fun r => r.member.id) := by
  induction l with
  | nil => rfl
  | cons r rs ih => simp [patreonOutcomeId_log, ih]

/-- C8: the entitlement sweep isolates per-member failures — for every
member list in which some member k of the update set of the sweep has a
failing add-role call, the sweep still emits exactly one outcome log
line per update-set member, in order (so every member is processed and
logged), and every update-set member whose calls do not fail still ends
with the member role; the failure of one member never aborts the sweep. -/
theorem claim_C8 (cfg : Config) (env : PatreonEnv) (members : List Member)
    (k : Member) (mp : Nat)
    (hperm : env.botHasManageRoles = true)
    (hmr : env.memberRolePos = some mp) (hmph : mp < env.botHighestPos)
    (hunvOk : env.unverifiedRolePos = none ∨
      ∃ up, env.unverifiedRolePos = some up ∧ up < env.botHighestPos)
    (hne : cfg.memberRoleId ≠ cfg.unverifiedRoleId)
    (hk : k ∈ members.filter (patreonNeedsUpdate cfg (foundPatreonIds cfg env)))
    (hkfail : k.id ∈ env.addFailsFor) :
    (checkPatreonMembers cfg env members).logs.filterMap patreonOutcomeId =
      (members.filter
        (patreonNeedsUpdate cfg (foundPatreonIds cfg env))).map Member.id ∧
    ∀ m2 ∈ members.filter (patreonNeedsUpdate cfg (foundPatreonIds cfg env)),
      m2.id ∉ env.addFailsFor →
      cfg.memberRoleId ∈ (patreonProcessMember cfg env m2).member.roles := by
  have hkupd : patreonNeedsUpdate cfg (foundPatreonIds cfg env) k = true :=
    (List.mem_filter.mp hk).2
  have hfoundne : (foundPatreonIds cfg env).isEmpty = false := by
    rw [List.isEmpty_eq_false]
    intro hnil
    rw [patreonNeedsUpdate, hnil] at hkupd
    simp at hkupd
  constructor
  · have hlogs : (checkPatreonMembers cfg env members).logs =
        (if (members.filter
            (patreonNeedsUpdate cfg (foundPatreonIds cfg env))).length > 0
         then [PLog.foundMembers (members.filter
            (patreonNeedsUpdate cfg (foundPatreonIds cfg env))).length]
         else []) ++
        ((members.filter (patreonNeedsUpdate cfg (foundPatreonIds cfg env))).map
          (patreonProcessMember cfg env)).map patreonMemberLog := by
      simp only [checkPatreonMembers, hperm, not_true_eq_false, if_false, hmr,
        hfoundne, Bool.false_eq_true, if_false]
      have hhier : ¬(env.botHighestPos ≤ mp ∨
          (env.unverifiedRolePos.any fun up => env.botHighestPos ≤ up) = true) := by
        refine not_or.mpr ⟨hmph.not_le, ?_⟩
        rcases hunvOk with hnone | ⟨up, hup, hle⟩
        · simp [hnone]
        · simp [hup, hle.not_le]
      rw [if_neg hhier]
    rw [hlogs, List.filterMap_append,
      if_pos (List.length_pos.mpr (List.ne_nil_of_mem hk)), filterMap_outcome]
    have hc : (fun m2 : Member =>
        (patreonProcessMember cfg env m2).member.id) = Member.id := by
      funext m2
      exact patreonProcessMember_id cfg env m2
    simp only [patreonOutcomeId, List.filterMap, List.map_map, Function.comp_def, hc]
    rfl
  · intro m2 _ hfail2
    simp only [patreonProcessMember, if_neg hfail2]
    split
    · split
      · simp
      · simp [List.mem_filter, hne]
    · simp

/-- Witness for C8 at a concrete member list in which the second of
three update-set members has a failing add call. -/
theorem claim_C8_witness :
    (checkPatreonMembers ⟨"tok", "g", "U", "M", "V", "L", "P"⟩
      ⟨true, 10, some 1, some 2, [], ["kate"], []⟩
      [⟨"ann", false, "g", ["e", "P"]⟩, ⟨"kate", false, "g", ["e", "P", "U"]⟩,
       ⟨"cid", false, "g", ["e", "P", "U"]⟩]).logs.filterMap patreonOutcomeId =
      ([⟨"ann", false, "g", ["e", "P"]⟩, ⟨"kate", false, "g", ["e", "P", "U"]⟩,
        ⟨"cid", false, "g", ["e", "P", "U"]⟩].filter
        (patreonNeedsUpdate ⟨"tok", "g", "U", "M", "V", "L", "P"⟩
          (foundPatreonIds ⟨"tok", "g", "U", "M", "V", "L", "P"⟩
            ⟨true, 10, some 1, some 2, [], ["kate"], []⟩))).map Member.id :=
  (claim_C8 ⟨"tok", "g", "U", "M", "V", "L", "P"⟩
    ⟨true, 10, some 1, some 2, [], ["kate"], []⟩
    [⟨"ann", false, "g", ["e", "P"]⟩, ⟨"kate", false, "g", ["e", "P", "U"]⟩,
     ⟨"cid", false, "g", ["e", "P", "U"]⟩]
    ⟨"kate", false, "g", ["e", "P", "U"]⟩ 1
    rfl rfl (by decide) (Or.inr ⟨2, rfl, by decide⟩) (by decide)
    (by decide) (by decide)).1

/-- C2 counterexample: a non-bot member who joins the configured guild
holding three roles (so the role set size is not the baseline 1) and
lacking the unverified role.  The join handler calls
`assignUnverifiedRole` unconditionally — no role-count check — and an
add mutation is issued, refuting the claim that the unverified role is
added only when the role set size equals exactly the baseline. -/
theorem claim_C2_counterexample :
    (⟨"carl", false, "g", ["e", "X", "Y"]⟩ : Member).roles.length ≠ 1 ∧
    (⟨"carl", false, "g", ["e", "X", "Y"]⟩ : Member).isBot = false ∧
    (guildMemberAdd ⟨"tok", "g", "U", "M", "V", "L", "P"⟩
      ⟨true, 5, some 1, false⟩
      ⟨"carl", false, "g", ["e", "X", "Y"]⟩).mutations = [Mut.add "U"] := by
  decide

/-- C2 (amended): the size-equals-baseline condition gates only the
periodic sweep — there, every issued mutation comes from a member whose
role set size is exactly 1 (the implicit default role only) and who
lacks the unverified role; the member-join handler instead assigns the
unverified role to any eligible non-bot joining member who does not
already hold it, regardless of role set size. -/
theorem claim_C2 (cfg : Config) (env : Env) :
    (∀ m : Member, m.roles.length ≠ 1 →
      (pendingSweepMember cfg env m).mutations = []) ∧
    (∀ members : List Member,
      ∀ mu ∈ (checkAndAssignUnverifiedRoles cfg env members).mutations,
      ∃ m ∈ members, m.roles.length = 1 ∧ cfg.unverifiedRoleId ∉ m.roles) ∧
    (∀ m : Member, ∀ p : Nat, m.isBot = false → m.guildId = cfg.guildId →
      env.botHasManageRoles = true → env.unverifiedRolePos = some p →
      p < env.botHighestPos → env.addRoleFails = false →
      cfg.unverifiedRoleId ∉ m.roles →
      (guildMemberAdd cfg env m).mutations = [Mut.add cfg.unverifiedRoleId]) := by
  refine ⟨fun m hlen => ?_, fun members mu hmu => ?_, fun m p hb hg hp hr hlt hf hnot => ?_⟩
  · unfold pendingSweepMember
    split_ifs with h1 h2
    · rfl
    · exact absurd h2.1 hlen
    · rfl
  · unfold checkAndAssignUnverifiedRoles at hmu
    split at hmu
    · simp at hmu
    · split at hmu
      · simp at hmu
      · split at hmu
        · simp at hmu
        · rw [List.mem_flatMap] at hmu
          obtain ⟨r, hr, hmur⟩ := hmu
          rw [List.mem_map] at hr
          obtain ⟨m, hm, rfl⟩ := hr
          unfold pendingSweepMember at hmur
          split at hmur
          · simp at hmur
          · split at hmur
            · next hcond => exact ⟨m, hm, hcond.1, hcond.2⟩
            · simp at hmur
  · simp [guildMemberAdd, assignUnverifiedRole, hb, hg, hp, hr, hf, hnot,
      hlt.not_le]

/-- Witness for C2 at a concrete configuration, environment and joining
member with three roles. -/
theorem claim_C2_witness :
    (guildMemberAdd ⟨"tok", "g", "U", "M", "V", "L", "P"⟩
      ⟨true, 5, some 1, false⟩
      ⟨"dana", false, "g", ["e", "X", "Y"]⟩).mutations = [Mut.add "U"] :=
  (claim_C2 ⟨"tok", "g", "U", "M", "V", "L", "P"⟩
    ⟨true, 5, some 1, false⟩).2.2
    ⟨"dana", false, "g", ["e", "X", "Y"]⟩ 1
    rfl rfl rfl rfl (by decide) rfl (by decide)

/-- C1 counterexample: a well-formed verify command (non-bot author,
configured guild and channel, exact keyword, Manage Roles held) from a
member who does not hold the unverified role, in an environment where
the unverified role sits above the highest role of the bot.  The
handler fetches the roles and runs the hierarchy check before the
already-verified test, so it sends the hierarchy-failure reply, not the
not-needed reply — the outcome is decided by the hierarchy check. -/
theorem claim_C1_counterexample :
    (⟨"bob", false, "g", ["e"]⟩ : Member).isBot = false ∧
    "U" ∉ (⟨"bob", false, "g", ["e"]⟩ : Member).roles ∧
    (messageCreate ⟨"tok", "g", "U", "M", "V", "L", "P"⟩
      ⟨false, some "g", "V", "?verify", true, ⟨"bob", false, "g", ["e"]⟩,
       true, true, true, 1, some 5, some 0, false, false, false, false, ""⟩).replies =
      [Reply.hierFail] ∧
    (messageCreate ⟨"tok", "g", "U", "M", "V", "L", "P"⟩
      ⟨false, some "g", "V", "?verify", true, ⟨"bob", false, "g", ["e"]⟩,
       true, true, true, 1, some 5, some 0, false, false, false, false, ""⟩).replies ≠
      [Reply.notNeeded] := by
  decide

/-- C1 (amended): in the verification transaction the role fetch and
hierarchy checks run before the already-verified test; for every verify
command from a non-bot member who does not hold the unverified role,
when the permission check, role fetch and hierarchy checks all pass,
the handler sends the not-needed reply and issues no role mutation.
When the hierarchy check fails, the member receives the
hierarchy-failure reply instead. -/
theorem claim_C1 (cfg : Config) (i : VerifyInput) (up mp : Nat)
    (h1 : i.authorBot = false)
    (h2 : i.messageGuildId = some cfg.guildId)
    (h3 : i.channelId = cfg.verificationChannelId)
    (h4 : jsToLower (jsTrim i.content) = "?verify")
    (h5 : i.memberResolved = true)
    (h6 : i.botHasManageRoles = true)
    (h7 : i.unverifiedRolePos = some up)
    (h8 : i.memberRolePos = some mp)
    (h9 : up < i.botHighestPos)
    (h10 : mp < i.botHighestPos)
    (h11 : cfg.unverifiedRoleId ∉ i.member.roles) :
    (messageCreate cfg i).replies = [Reply.notNeeded] ∧
    (messageCreate cfg i).mutations = [] := by
  have hcmd : ¬(jsToLower (jsTrim i.content) ≠ "?verify") := by simp [h4]
  simp [messageCreate, verifyCore, h1, h2, h3, hcmd, h5, h6, h7, h8,
    h9.not_le, h10.not_le, h11]

/-- Witness for C1 (amended) at a concrete configuration and input. -/
theorem claim_C1_witness :
    (messageCreate ⟨"tok", "g", "U", "M", "V", "L", "P"⟩
      ⟨false, some "g", "V", " ?Verify ", true, ⟨"bob", false, "g", ["e"]⟩,
       true, true, true, 9, some 5, some 0, false, false, false, false, ""⟩).replies =
      [Reply.notNeeded] ∧
    (messageCreate ⟨"tok", "g", "U", "M", "V", "L", "P"⟩
      ⟨false, some "g", "V", " ?Verify ", true, ⟨"bob", false, "g", ["e"]⟩,
       true, true, true, 9, some 5, some 0, false, false, false, false, ""⟩).mutations =
      [] :=
  claim_C1 ⟨"tok", "g", "U", "M", "V", "L", "P"⟩
    ⟨false, some "g", "V", " ?Verify ", true, ⟨"bob", false, "g", ["e"]⟩,
     true, true, true, 9, some 5, some 0, false, false, false, false, ""⟩ 5 0
    rfl rfl rfl (by decide) rfl rfl rfl rfl (by decide) (by decide) (by decide)

/-- C3 counterexample: a well-formed verify command (non-bot author,
configured guild and channel, exact keyword) whose author cannot be
resolved to a guild member.  The handler logs the failure and returns
without sending any reply — a terminal path on which the triggering
member receives zero replies, not exactly one. -/
theorem claim_C3_counterexample :
    (⟨false, some "g", "V", "?verify", false, ⟨"bob", false, "g", ["e"]⟩,
      true, true, true, 9, some 5, some 0, false, false, false, false, ""⟩ :
        VerifyInput).authorBot = false ∧
    (⟨false, some "g", "V", "?verify", false, ⟨"bob", false, "g", ["e"]⟩,
      true, true, true, 9, some 5, some 0, false, false, false, false, ""⟩ :
        VerifyInput).memberResolved = false ∧
    (messageCreate ⟨"tok", "g", "U", "M", "V", "L", "P"⟩
      ⟨false, some "g", "V", "?verify", false, ⟨"bob", false, "g", ["e"]⟩,
       true, true, true, 9, some 5, some 0, false, false, false, false, ""⟩).replies =
      [] := by
  decide

theorem verifyCore_replies (cfg : Config) (i : VerifyInput) :
    ∃ r : Reply, (verifyCore cfg i).replies = [r] ∧
      ∀ d : String, (verifyCore cfg { i with errorDetail := d }).replies = [r] := by
  by_cases h6 : i.botHasManageRoles = true
  case neg =>
    exact ⟨.permFail, by simp [verifyCore, h6], fun d => by simp [verifyCore, h6]⟩
  by_cases h7 : i.unverifiedRolePos = none ∨ i.memberRolePos = none
  case pos =>
    exact ⟨.rolesFail, by simp [verifyCore, h6, h7],
      fun d => by simp [verifyCore, h6, h7]⟩
  by_cases h8 : i.botHighestPos ≤ i.unverifiedRolePos.getD 0 ∨
      i.botHighestPos ≤ i.memberRolePos.getD 0
  case pos =>
    exact ⟨.hierFail, by simp [verifyCore, h6, h7, h8],
      fun d => by simp [verifyCore, h6, h7, h8]⟩
  by_cases h9 : cfg.unverifiedRoleId ∈ i.member.roles
  case neg =>
    exact ⟨.notNeeded, by simp [verifyCore, h6, h7, h8, h9],
      fun d => by simp [verifyCore, h6, h7, h8, h9]⟩
  by_cases h10 : i.removeFails = true
  case pos =>
    exact ⟨.genericError, by simp [verifyCore, h6, h7, h8, h9, h10],
      fun d => by simp [verifyCore, h6, h7, h8, h9, h10]⟩
  by_cases h11 : i.addFails = true
  case pos =>
    exact ⟨.genericError, by simp [verifyCore, h6, h7, h8, h9, h10, h11],
      fun d => by simp [verifyCore, h6, h7, h8, h9, h10, h11]⟩
  by_cases h12 : i.canManageMessages = true ∧ i.cleanupFails = true
  case pos =>
    exact ⟨.successPartial, by simp [verifyCore, h6, h7, h8, h9, h10, h11, h12],
      fun d => by simp [verifyCore, h6, h7, h8, h9, h10, h11, h12]⟩
  case neg =>
    exact ⟨.success, by simp [verifyCore, h6, h7, h8, h9, h10, h11, h12],
      fun d => by simp [verifyCore, h6, h7, h8, h9, h10, h11, h12]⟩

/-- C3 (amended): for every well-formed verify command that enters the
transaction and whose author resolves to a guild member, the member
receives exactly one reply on every terminal path, and the replies are
independent of the raw internal error detail of any failing call (the
reply set consists of fixed constant messages; the detail reaches only
the logs).  When the author does not resolve to a member, no reply is
sent at all. -/
theorem claim_C3 (cfg : Config) (i : VerifyInput)
    (h1 : i.authorBot = false)
    (h2 : i.messageGuildId = some cfg.guildId)
    (h3 : i.channelId = cfg.verificationChannelId)
    (h4 : jsToLower (jsTrim i.content) = "?verify")
    (h5 : i.memberResolved = true) :
    (messageCreate cfg i).replies.length = 1 ∧
    (∀ d : String, (messageCreate cfg { i with errorDetail := d }).replies =
      (messageCreate cfg i).replies) := by
  have hguard : messageCreate cfg i = verifyCore cfg i := by
    simp [messageCreate, h1, h2, h3, h4, h5]
  have hguardd : ∀ d : String,
      messageCreate cfg { i with errorDetail := d } =
        verifyCore cfg { i with errorDetail := d } := fun d => by
    simp [messageCreate, h1, h2, h3, h4, h5]
  obtain ⟨r, hr, hrd⟩ := verifyCore_replies cfg i
  refine ⟨?_, fun d => ?_⟩
  · rw [hguard, hr]
    rfl
  · rw [hguardd d, hrd d, hguard, hr]

/-- Witness for C3 (amended) at a concrete configuration and input. -/
theorem claim_C3_witness :
    (messageCreate ⟨"tok", "g", "U", "M", "V", "L", "P"⟩
      ⟨false, some "g", "V", "?verify", true, ⟨"bob", false, "g", ["U", "e"]⟩,
       true, true, true, 9, some 5, some 0, false, true, false, false,
       "socket closed"⟩).replies.length = 1 :=
  (claim_C3 ⟨"tok", "g", "U", "M", "V", "L", "P"⟩
    ⟨false, some "g", "V", "?verify", true, ⟨"bob", false, "g", ["U", "e"]⟩,
     true, true, true, 9, some 5, some 0, false, true, false, false,
     "socket closed"⟩
    rfl rfl rfl (by decide) rfl).1

end KmmBot
